import Mathlib

/-!
Shallow embedding of `bbdc.py`: the schema/model layer (pydantic models with a
camelCase alias generator), the slot filter/sort step
(`SlotResponseData.get_available_slots_by_sessions`), and the course-selection
step of `main`.  Dates and times are carried as strings exactly as in the
source; Python string comparison is lexicographic by code point, which is the
order on `String` used below.  Python's `sorted` is a stable sort driven by
`Slot.__lt__`; since a stable sort for a total preorder is unique, it is
modelled by `List.insertionSort` over the non-strict relation `slotLe`.
-/

/-- `Slot` record of `bbdc.py` (lines 85-92). -/
structure Slot where
  slot_id : Int
  slot_ref_name : String
  slot_ref_date : String
  start_time : String
  end_time : String
  slot_avl_computed : Bool
  computed_slot_avl : Int
deriving DecidableEq, Repr

/-- `SlotMonth` record of `bbdc.py` (lines 80-82). -/
structure SlotMonth where
  slot_month_en : String
  slot_month_ym : String
deriving DecidableEq, Repr

/-- `Course` record of `bbdc.py` (lines 62-66); `account_bal` is a JSON
decimal number, modelled as a rational. -/
structure Course where
  course_type : String
  account_bal : Rat
  enr_expiry_date_str : String
  auth_token : String
deriving DecidableEq, Repr

/-- `Slot.__lt__` (lines 94-98): compare `slot_ref_date` strings, break ties
by `start_time`. -/
def slotLt (a b : Slot) : Prop :=
  if a.slot_ref_date = b.slot_ref_date then a.start_time < b.start_time
  else a.slot_ref_date < b.slot_ref_date

instance : DecidableRel slotLt := fun a b =>
  decidable_of_iff
    (if a.slot_ref_date = b.slot_ref_date then a.start_time.toList < b.start_time.toList
     else a.slot_ref_date.toList < b.slot_ref_date.toList) (by
    unfold slotLt
    by_cases hd : a.slot_ref_date = b.slot_ref_date <;>
      simp [hd, String.lt_iff_toList_lt])

/-- The non-strict order induced by `Slot.__lt__`, as used by Python's
`sorted`: `a` may stay before `b` exactly when `¬ (b < a)`. -/
def slotLe (a b : Slot) : Prop := ¬ slotLt b a

instance : DecidableRel slotLe := fun _ _ => instDecidableNot

theorem slotLe_iff (a b : Slot) :
    slotLe a b ↔ a.slot_ref_date < b.slot_ref_date ∨
      (a.slot_ref_date = b.slot_ref_date ∧ a.start_time ≤ b.start_time) := by
  unfold slotLe slotLt
  by_cases hd : b.slot_ref_date = a.slot_ref_date
  · rw [if_pos hd, not_lt]
    constructor
    · intro h; exact Or.inr ⟨hd.symm, h⟩
    · rintro (h | ⟨-, h⟩)
      · rw [hd] at h; exact absurd h (lt_irrefl _)
      · exact h
  · rw [if_neg hd, not_lt]
    constructor
    · intro h
      exact Or.inl (lt_of_le_of_ne h (fun e => hd e.symm))
    · rintro (h | ⟨h, -⟩)
      · exact le_of_lt h
      · exact absurd h.symm hd

instance : IsTotal Slot slotLe := ⟨by
  intro a b
  rw [slotLe_iff, slotLe_iff]
  rcases lt_trichotomy a.slot_ref_date b.slot_ref_date with h | h | h
  · exact Or.inl (Or.inl h)
  · rcases le_total a.start_time b.start_time with h' | h'
    · exact Or.inl (Or.inr ⟨h, h'⟩)
    · exact Or.inr (Or.inr ⟨h.symm, h'⟩)
  · exact Or.inr (Or.inl h)⟩

instance : IsTrans Slot slotLe := ⟨by
  intro a b c hab hbc
  rw [slotLe_iff] at hab hbc ⊢
  rcases hab with h1 | ⟨h1, h1'⟩ <;> rcases hbc with h2 | ⟨h2, h2'⟩
  · exact Or.inl (lt_trans h1 h2)
  · exact Or.inl (h2 ▸ h1)
  · exact Or.inl (h1 ▸ h2)
  · exact Or.inr ⟨h1.trans h2, le_trans h1' h2'⟩⟩

/-- `SlotResponseData` record (lines 101-103): two optional fields, both
defaulting to absent.  The `dict[str, list[Slot]]` is carried as an
insertion-ordered association list, as Python dicts are. -/
structure SlotResponseData where
  released_slot_month_list : Option (List SlotMonth) := none
  released_slot_list_group_by_day : Option (List (String × List Slot)) := none
deriving DecidableEq, Repr

/-- The acceptable display names built on line 107:
`[f"SESSION {session}" for session in sessions]`. -/
def sessionNames (sessions : List Int) : List String :=
  sessions.map (fun session => "SESSION " ++ toString session)

/-- `SlotResponseData.get_available_slots_by_sessions` (lines 105-117).
The walrus-`if` on line 109 is Python truthiness: the grouped branch is taken
only when the field is non-`None` AND the dict is non-empty; otherwise the
method returns `None`.  The nested loops of lines 111-114 append, group by
group, the slots whose `slot_ref_name` is among the session names; line 115
returns them stably sorted by `Slot.__lt__`. -/
def get_available_slots_by_sessions (d : SlotResponseData) (sessions : List Int) :
    Option (List Slot) :=
  let session_names := sessionNames sessions
  match d.released_slot_list_group_by_day with
  | some g =>
      if g.isEmpty then none
      else
        some (List.insertionSort slotLe
          ((g.map (fun kv => kv.2.filter
            (fun slot => decide (slot.slot_ref_name ∈ session_names)))).flatten))
  | none => none

/-- All slots of a page, drawn from every day-group in dict order. -/
def pageSlots (g : List (String × List Slot)) : List Slot :=
  (g.map Prod.snd).flatten

lemma mem_matched (g : List (String × List Slot)) (names : List String) (s : Slot) :
    s ∈ (g.map (fun kv => kv.2.filter
        (fun slot => decide (slot.slot_ref_name ∈ names)))).flatten ↔
      s ∈ pageSlots g ∧ s.slot_ref_name ∈ names := by
  simp only [pageSlots, List.mem_flatten, List.mem_map]
  constructor
  · rintro ⟨_, ⟨kv, hkv, rfl⟩, hs⟩
    rw [List.mem_filter, decide_eq_true_eq] at hs
    exact ⟨⟨kv.2, ⟨kv, hkv, rfl⟩, hs.1⟩, hs.2⟩
  · rintro ⟨⟨_, ⟨kv, hkv, rfl⟩, hs⟩, hn⟩
    exact ⟨_, ⟨kv, hkv, rfl⟩, List.mem_filter.2 ⟨hs, decide_eq_true hn⟩⟩

lemma get_available_some (d : SlotResponseData) (sessions : List Int) (l : List Slot)
    (h : get_available_slots_by_sessions d sessions = some l) :
    ∃ g, d.released_slot_list_group_by_day = some g ∧ g.isEmpty = false ∧
      l = List.insertionSort slotLe ((g.map (fun kv => kv.2.filter
        (fun slot => decide (slot.slot_ref_name ∈ sessionNames sessions)))).flatten) := by
  cases hg : d.released_slot_list_group_by_day with
  | none => simp [get_available_slots_by_sessions, hg] at h
  | some g =>
    simp only [get_available_slots_by_sessions, hg] at h
    by_cases he : g.isEmpty
    · rw [if_pos he] at h; exact absurd h (by simp)
    · rw [if_neg he] at h
      exact ⟨g, rfl, Bool.eq_false_iff.2 he, (Option.some.inj h).symm⟩

lemma get_available_of_nonempty (d : SlotResponseData) (sessions : List Int)
    (g : List (String × List Slot)) (hg : d.released_slot_list_group_by_day = some g)
    (hne : g.isEmpty = false) :
    get_available_slots_by_sessions d sessions =
      some (List.insertionSort slotLe ((g.map (fun kv => kv.2.filter
        (fun slot => decide (slot.slot_ref_name ∈ sessionNames sessions)))).flatten)) := by
  simp only [get_available_slots_by_sessions, hg]
  rw [if_neg (by simp [hne])]

/-- Modelled from the spec: the claims read the `DD-MM-YYYY` strings (such as
`"01-06-2024"`) as calendar dates; calendar order is obtained by rearranging
the day-month-year components to year-month-day and comparing the fixed-width
result lexicographically. -/
def isoDateKey (s : String) : List Char :=
  (s.toList.drop 6) ++ ((s.toList.drop 3).take 2) ++ (s.toList.take 2)

/-- Modelled from the spec: calendar order on `DD-MM-YYYY` date strings. -/
def calendarDateLt (a b : String) : Prop :=
  isoDateKey a < isoDateKey b

instance : DecidableRel calendarDateLt := fun a b => by
  unfold calendarDateLt isoDateKey; infer_instance

/-- C1: with the grouped-slot data of the page present, the slots returned by
`get_available_slots_by_sessions` all carry a display name `"SESSION {n}"` for
a requested `n` and are drawn from the page's day-groups, and every slot of
the page with such a display name appears in the returned list. -/
theorem get_available_slots_exact (d : SlotResponseData)
    (g : List (String × List Slot)) (sessions : List Int)
    (hg : d.released_slot_list_group_by_day = some g) :
    (∀ l, get_available_slots_by_sessions d sessions = some l →
      ∀ s ∈ l, s.slot_ref_name ∈ sessionNames sessions ∧ s ∈ pageSlots g) ∧
    (∀ s ∈ pageSlots g, s.slot_ref_name ∈ sessionNames sessions →
      ∃ l, get_available_slots_by_sessions d sessions = some l ∧ s ∈ l) := by
  constructor
  · intro l hl s hs
    obtain ⟨g', hg', hne, rfl⟩ := get_available_some d sessions l hl
    have hgg : g = g' := by rw [hg] at hg'; exact Option.some.inj hg'
    subst hgg
    rw [List.mem_insertionSort, mem_matched] at hs
    exact ⟨hs.2, hs.1⟩
  · intro s hs hn
    have hne : g.isEmpty = false := by
      cases g with
      | nil => simp [pageSlots] at hs
      | cons a t => rfl
    refine ⟨_, get_available_of_nonempty d sessions g hg hne, ?_⟩
    rw [List.mem_insertionSort, mem_matched]
    exact ⟨hs, hn⟩

/-- C2 (amended): the returned list is sorted by lexicographic comparison of
the `DD-MM-YYYY` date strings, with ties broken by start time — the order of
`Slot.__lt__`, which is chronological within a month but not across months. -/
theorem output_sorted_by_date_string (d : SlotResponseData) (sessions : List Int)
    (l : List Slot) (h : get_available_slots_by_sessions d sessions = some l)
    (i j : Fin l.length) (hij : i < j) :
    (l.get i).slot_ref_date < (l.get j).slot_ref_date ∨
      ((l.get i).slot_ref_date = (l.get j).slot_ref_date ∧
        (l.get i).start_time ≤ (l.get j).start_time) := by
  have hsorted : l.Sorted slotLe := by
    obtain ⟨g, hg, hne, rfl⟩ := get_available_some d sessions l h
    exact List.sorted_insertionSort slotLe _
  have := hsorted.rel_get_of_lt hij
  rwa [slotLe_iff] at this

/-- C3: wrapping the returned list back into a single-group page and applying
`get_available_slots_by_sessions` again with the same session numbers returns
the same list. -/
theorem filter_idempotent (d : SlotResponseData) (sessions : List Int) (k : String)
    (l : List Slot) (h : get_available_slots_by_sessions d sessions = some l) :
    get_available_slots_by_sessions ⟨none, some [(k, l)]⟩ sessions = some l := by
  obtain ⟨g, hg, hne, hl⟩ := get_available_some d sessions l h
  have hmem : ∀ s ∈ l, decide (s.slot_ref_name ∈ sessionNames sessions) = true := by
    intro s hs
    rw [hl, List.mem_insertionSort, mem_matched] at hs
    exact decide_eq_true hs.2
  have hsorted : l.Sorted slotLe := hl ▸ List.sorted_insertionSort slotLe _
  rw [get_available_of_nonempty _ sessions [(k, l)] rfl rfl]
  simp only [List.map_cons, List.map_nil, List.flatten_cons, List.flatten_nil,
    List.append_nil]
  rw [List.filter_eq_self.2 hmem, hsorted.insertionSort_eq]

/-- C9: when the grouped-slot data is present with at least one day-group and
no slot of the page matches any requested session number, the result is
`some []` — an empty list, not an error and not the absent value. -/
theorem zero_matches_empty (d : SlotResponseData) (g : List (String × List Slot))
    (sessions : List Int) (hg : d.released_slot_list_group_by_day = some g)
    (hne : g ≠ [])
    (hnm : ∀ s ∈ pageSlots g, s.slot_ref_name ∉ sessionNames sessions) :
    get_available_slots_by_sessions d sessions = some [] := by
  have hne' : g.isEmpty = false := by
    cases g with
    | nil => exact absurd rfl hne
    | cons a t => rfl
  have hnil : ((g.map (fun kv => kv.2.filter
      (fun slot => decide (slot.slot_ref_name ∈ sessionNames sessions)))).flatten) = [] := by
    rw [List.eq_nil_iff_forall_not_mem]
    intro s hs
    rw [mem_matched] at hs
    exact hnm s hs.1 hs.2
  rw [get_available_of_nonempty d sessions g hg hne', hnil]
  rfl

/-- C10: when the grouped-slot field is absent, or present but an empty
mapping (Python truthiness of the walrus-`if` on line 109),
`get_available_slots_by_sessions` returns `None`, not a list. -/
theorem empty_or_absent_grouping_yields_none (d : SlotResponseData)
    (sessions : List Int)
    (h : d.released_slot_list_group_by_day = none ∨
      d.released_slot_list_group_by_day = some []) :
    get_available_slots_by_sessions d sessions = none := by
  rcases h with h | h <;> simp [get_available_slots_by_sessions, h]

/-- A matching slot on 2 June 2024. -/
def slotJun : Slot := ⟨1, "SESSION 5", "02-06-2024", "08:00", "09:40", true, 1⟩

/-- A matching slot on 1 July 2024, calendar-later but string-smaller. -/
def slotJul : Slot := ⟨2, "SESSION 5", "01-07-2024", "07:30", "09:10", true, 1⟩

/-- A slot page whose single day-group holds the June and July slots. -/
def samplePage : SlotResponseData := ⟨none, some [("group", [slotJun, slotJul])]⟩

/-- C2: counterexample — on a page holding matching slots dated `02-06-2024`
and `01-07-2024`, the function puts the July slot first (the `DD-MM-YYYY`
strings are compared lexicographically, and `"01-07-2024" < "02-06-2024"`),
so adjacent results are not in calendar-chronological order. -/
theorem chronological_order_fails :
    get_available_slots_by_sessions samplePage [5] = some [slotJul, slotJun] ∧
    ¬ (calendarDateLt slotJul.slot_ref_date slotJun.slot_ref_date ∨
       (slotJul.slot_ref_date = slotJun.slot_ref_date ∧
         slotJul.start_time ≤ slotJun.start_time)) :=
  ⟨by decide, by decide⟩

theorem get_available_slots_exact_witness :
    (∀ l, get_available_slots_by_sessions samplePage [5] = some l →
      ∀ s ∈ l, s.slot_ref_name ∈ sessionNames [5] ∧
        s ∈ pageSlots [("group", [slotJun, slotJul])]) ∧
    (∀ s ∈ pageSlots [("group", [slotJun, slotJul])],
      s.slot_ref_name ∈ sessionNames [5] →
      ∃ l, get_available_slots_by_sessions samplePage [5] = some l ∧ s ∈ l) :=
  get_available_slots_exact samplePage [("group", [slotJun, slotJul])] [5] rfl

theorem output_sorted_by_date_string_witness :
    (([slotJul, slotJun] : List Slot).get ⟨0, by decide⟩).slot_ref_date <
        (([slotJul, slotJun] : List Slot).get ⟨1, by decide⟩).slot_ref_date ∨
      ((([slotJul, slotJun] : List Slot).get ⟨0, by decide⟩).slot_ref_date =
          (([slotJul, slotJun] : List Slot).get ⟨1, by decide⟩).slot_ref_date ∧
        (([slotJul, slotJun] : List Slot).get ⟨0, by decide⟩).start_time ≤
          (([slotJul, slotJun] : List Slot).get ⟨1, by decide⟩).start_time) :=
  output_sorted_by_date_string samplePage [5] [slotJul, slotJun] (by decide)
    ⟨0, by decide⟩ ⟨1, by decide⟩ (by decide)

theorem filter_idempotent_witness :
    get_available_slots_by_sessions ⟨none, some [("day", [slotJul, slotJun])]⟩ [5] =
      some [slotJul, slotJun] :=
  filter_idempotent samplePage [5] "day" [slotJul, slotJun] (by decide)

theorem zero_matches_empty_witness :
    get_available_slots_by_sessions samplePage [7] = some [] :=
  zero_matches_empty samplePage [("group", [slotJun, slotJul])] [7] rfl
    (by decide) (by decide)

theorem empty_or_absent_grouping_yields_none_witness :
    get_available_slots_by_sessions ⟨none, some []⟩ [5] = none :=
  empty_or_absent_grouping_yields_none ⟨none, some []⟩ [5] (Or.inr rfl)

/-- `CheckIdPasswordResponseData` record (lines 37-40). -/
structure CheckIdPasswordResponseData where
  token_header : String
  token_content : String
  username : String
deriving DecidableEq, Repr

/-- `CheckIdPasswordResponse` record (lines 43-46). -/
structure CheckIdPasswordResponse where
  success : Bool
  code : Option Int
  data : CheckIdPasswordResponseData
deriving DecidableEq, Repr

/-- `LoginCaptchaData` record (lines 49-52). -/
structure LoginCaptchaData where
  image : String
  captcha_token : String
  verify_code_id : String
deriving DecidableEq, Repr

/-- `LoginCaptcha` record (lines 55-59). -/
structure LoginCaptcha where
  success : Bool
  code : Option Int
  data : LoginCaptchaData
deriving DecidableEq, Repr

/-- `CoursesData` record (lines 69-70). -/
structure CoursesData where
  active_course_list : List Course
deriving DecidableEq, Repr

/-- `Courses` record (lines 73-77). -/
structure Courses where
  success : Bool
  code : Option Int
  data : CoursesData
deriving DecidableEq, Repr

/-- `SlotResponse` record (lines 120-124). -/
structure SlotResponse where
  success : Bool
  code : Option Int
  data : SlotResponseData
deriving DecidableEq, Repr

/-- JSON values as received on the wire; numbers are decimal literals,
modelled exactly as rationals, and objects are ordered key/value lists. -/
inductive Json where
  | null : Json
  | bool (b : Bool) : Json
  | num (q : Rat) : Json
  | str (s : String) : Json
  | arr (xs : List Json) : Json
  | obj (kvs : List (String × Json)) : Json

/-- Whether a decoding result is a success. -/
def decodeOk {α : Type} : Except String α → Bool
  | .ok _ => true
  | .error _ => false

/-- A required pydantic field: validation fails with a schema error when the
camelCase alias is absent from the object. -/
def reqField {α : Type} (kvs : List (String × Json)) (k : String)
    (dec : Json → Except String α) : Except String α :=
  match kvs.lookup k with
  | none => .error ("SchemaError: missing field " ++ k)
  | some v => dec v

/-- An optional pydantic field with default `None`: an absent alias or an
explicit `null` both decode to the explicit absent value. -/
def optField {α : Type} (kvs : List (String × Json)) (k : String)
    (dec : Json → Except String α) : Except String (Option α) :=
  match kvs.lookup k with
  | none => .ok none
  | some .null => .ok none
  | some v => (dec v).map some

def decodeString : Json → Except String String
  | .str s => .ok s
  | _ => .error "SchemaError: expected string"

def decodeBool : Json → Except String Bool
  | .bool b => .ok b
  | _ => .error "SchemaError: expected bool"

def decodeInt : Json → Except String Int
  | .num q => if q.den = 1 then .ok q.num else .error "SchemaError: expected int"
  | _ => .error "SchemaError: expected int"

/-- `float` fields accept any JSON number. -/
def decodeFloat : Json → Except String Rat
  | .num q => .ok q
  | _ => .error "SchemaError: expected number"

/-- The `int | None` annotation of the `code` field: nullable but required. -/
def decodeIntOpt : Json → Except String (Option Int)
  | .null => .ok none
  | v => (decodeInt v).map some

def decodeListWith {α : Type} (dec : Json → Except String α) :
    List Json → Except String (List α)
  | [] => .ok []
  | x :: xs => do
      let a ← dec x
      let rest ← decodeListWith dec xs
      .ok (a :: rest)

def decodeArr {α : Type} (dec : Json → Except String α) :
    Json → Except String (List α)
  | .arr xs => decodeListWith dec xs
  | _ => .error "SchemaError: expected array"

/-- `Slot.model_validate`: the camelCase aliases produced by pydantic's
`to_camel` generator for the snake_case fields of lines 86-92. -/
def Slot.model_validate : Json → Except String Slot
  | .obj kvs => do
      let sid ← reqField kvs "slotId" decodeInt
      let name ← reqField kvs "slotRefName" decodeString
      let date ← reqField kvs "slotRefDate" decodeString
      let st ← reqField kvs "startTime" decodeString
      let et ← reqField kvs "endTime" decodeString
      let avl ← reqField kvs "slotAvlComputed" decodeBool
      let cnt ← reqField kvs "computedSlotAvl" decodeInt
      .ok ⟨sid, name, date, st, et, avl, cnt⟩
  | _ => .error "SchemaError: expected object"

def SlotMonth.model_validate : Json → Except String SlotMonth
  | .obj kvs => do
      let en ← reqField kvs "slotMonthEn" decodeString
      let ym ← reqField kvs "slotMonthYm" decodeString
      .ok ⟨en, ym⟩
  | _ => .error "SchemaError: expected object"

def Course.model_validate : Json → Except String Course
  | .obj kvs => do
      let ct ← reqField kvs "courseType" decodeString
      let bal ← reqField kvs "accountBal" decodeFloat
      let exp ← reqField kvs "enrExpiryDateStr" decodeString
      let tok ← reqField kvs "authToken" decodeString
      .ok ⟨ct, bal, exp, tok⟩
  | _ => .error "SchemaError: expected object"

def CheckIdPasswordResponseData.model_validate :
    Json → Except String CheckIdPasswordResponseData
  | .obj kvs => do
      let th ← reqField kvs "tokenHeader" decodeString
      let tc ← reqField kvs "tokenContent" decodeString
      let un ← reqField kvs "username" decodeString
      .ok ⟨th, tc, un⟩
  | _ => .error "SchemaError: expected object"

def LoginCaptchaData.model_validate : Json → Except String LoginCaptchaData
  | .obj kvs => do
      let im ← reqField kvs "image" decodeString
      let ct ← reqField kvs "captchaToken" decodeString
      let vc ← reqField kvs "verifyCodeId" decodeString
      .ok ⟨im, ct, vc⟩
  | _ => .error "SchemaError: expected object"

def CoursesData.model_validate : Json → Except String CoursesData
  | .obj kvs => do
      let cs ← reqField kvs "activeCourseList" (decodeArr Course.model_validate)
      .ok ⟨cs⟩
  | _ => .error "SchemaError: expected object"

def decodeGroupedPairs : List (String × Json) → Except String (List (String × List Slot))
  | [] => .ok []
  | (k, v) :: rest => do
      let slots ← decodeArr Slot.model_validate v
      let tail ← decodeGroupedPairs rest
      .ok ((k, slots) :: tail)

/-- The `dict[str, list[Slot]]` annotation: a JSON object whose values are
slot arrays. -/
def decodeGrouped : Json → Except String (List (String × List Slot))
  | .obj kvs => decodeGroupedPairs kvs
  | _ => .error "SchemaError: expected object"

def SlotResponseData.model_validate : Json → Except String SlotResponseData
  | .obj kvs => do
      let months ← optField kvs "releasedSlotMonthList"
        (decodeArr SlotMonth.model_validate)
      let grouped ← optField kvs "releasedSlotListGroupByDay" decodeGrouped
      .ok ⟨months, grouped⟩
  | _ => .error "SchemaError: expected object"

/-- The shared `{success, code, data}` envelope of the response models built
on `CamelCaseBaseModel` (lines 43-46, 55-59, 73-77, 120-124): all three
fields are required, `code` is nullable. -/
def envelopeValidate {α : Type} (dataDec : Json → Except String α) :
    Json → Except String (Bool × Option Int × α)
  | .obj kvs => do
      let s ← reqField kvs "success" decodeBool
      let c ← reqField kvs "code" decodeIntOpt
      let d ← reqField kvs "data" dataDec
      .ok ⟨s, c, d⟩
  | _ => .error "SchemaError: expected object"

def CheckIdPasswordResponse.model_validate :
    Json → Except String CheckIdPasswordResponse :=
  fun j => (envelopeValidate CheckIdPasswordResponseData.model_validate j).map
    (fun t => ⟨t.1, t.2.1, t.2.2⟩)

def LoginCaptcha.model_validate : Json → Except String LoginCaptcha :=
  fun j => (envelopeValidate LoginCaptchaData.model_validate j).map
    (fun t => ⟨t.1, t.2.1, t.2.2⟩)

def Courses.model_validate : Json → Except String Courses :=
  fun j => (envelopeValidate CoursesData.model_validate j).map
    (fun t => ⟨t.1, t.2.1, t.2.2⟩)

def SlotResponse.model_validate : Json → Except String SlotResponse :=
  fun j => (envelopeValidate SlotResponseData.model_validate j).map
    (fun t => ⟨t.1, t.2.1, t.2.2⟩)

/-- Encoding of the nullable `code` field: `None` is sent as an explicit
`null` (spec §6), an integer as a JSON number. -/
def encodeIntOpt : Option Int → Json
  | none => .null
  | some i => .num (i : Rat)

/-- `Slot.model_dump` with `by_alias`: snake_case fields out as camelCase
wire keys. -/
def Slot.model_dump (s : Slot) : Json :=
  .obj [("slotId", .num (s.slot_id : Rat)), ("slotRefName", .str s.slot_ref_name),
        ("slotRefDate", .str s.slot_ref_date), ("startTime", .str s.start_time),
        ("endTime", .str s.end_time), ("slotAvlComputed", .bool s.slot_avl_computed),
        ("computedSlotAvl", .num (s.computed_slot_avl : Rat))]

def SlotMonth.model_dump (m : SlotMonth) : Json :=
  .obj [("slotMonthEn", .str m.slot_month_en), ("slotMonthYm", .str m.slot_month_ym)]

def Course.model_dump (c : Course) : Json :=
  .obj [("courseType", .str c.course_type), ("accountBal", .num c.account_bal),
        ("enrExpiryDateStr", .str c.enr_expiry_date_str),
        ("authToken", .str c.auth_token)]

def CheckIdPasswordResponseData.model_dump (d : CheckIdPasswordResponseData) : Json :=
  .obj [("tokenHeader", .str d.token_header), ("tokenContent", .str d.token_content),
        ("username", .str d.username)]

def LoginCaptchaData.model_dump (d : LoginCaptchaData) : Json :=
  .obj [("image", .str d.image), ("captchaToken", .str d.captcha_token),
        ("verifyCodeId", .str d.verify_code_id)]

def CoursesData.model_dump (d : CoursesData) : Json :=
  .obj [("activeCourseList", .arr (d.active_course_list.map Course.model_dump))]

def SlotResponseData.model_dump (d : SlotResponseData) : Json :=
  .obj [("releasedSlotMonthList",
         match d.released_slot_month_list with
         | none => .null
         | some ms => .arr (ms.map SlotMonth.model_dump)),
        ("releasedSlotListGroupByDay",
         match d.released_slot_list_group_by_day with
         | none => .null
         | some g => .obj (g.map (fun kv => (kv.1, .arr (kv.2.map Slot.model_dump)))))]

def CheckIdPasswordResponse.model_dump (r : CheckIdPasswordResponse) : Json :=
  .obj [("success", .bool r.success), ("code", encodeIntOpt r.code),
        ("data", r.data.model_dump)]

def LoginCaptcha.model_dump (r : LoginCaptcha) : Json :=
  .obj [("success", .bool r.success), ("code", encodeIntOpt r.code),
        ("data", r.data.model_dump)]

def Courses.model_dump (r : Courses) : Json :=
  .obj [("success", .bool r.success), ("code", encodeIntOpt r.code),
        ("data", r.data.model_dump)]

def SlotResponse.model_dump (r : SlotResponse) : Json :=
  .obj [("success", .bool r.success), ("code", encodeIntOpt r.code),
        ("data", r.data.model_dump)]

@[simp] lemma ok_bind {α β : Type} (a : α) (f : α → Except String β) :
    (Except.ok a : Except String α) >>= f = f a := rfl

@[simp] lemma error_bind {α β : Type} (e : String) (f : α → Except String β) :
    (Except.error e : Except String α) >>= f = Except.error e := rfl

@[simp] lemma map_ok {α β : Type} (f : α → β) (a : α) :
    Except.map f (Except.ok a : Except String α) = Except.ok (f a) := rfl

@[simp] lemma map_error {α β : Type} (f : α → β) (e : String) :
    Except.map f (Except.error e : Except String α) = Except.error e := rfl

lemma decodeListWith_map {α : Type} (dec : Json → Except String α) (enc : α → Json)
    (h : ∀ a, dec (enc a) = .ok a) (xs : List α) :
    decodeListWith dec (xs.map enc) = .ok xs := by
  induction xs with
  | nil => rfl
  | cons x t ih => simp [decodeListWith, h, ih]

lemma groupedPairs_roundtrip (g : List (String × List Slot)) :
    decodeGroupedPairs (g.map (fun kv => (kv.1, Json.arr (kv.2.map Slot.model_dump)))) =
      .ok g := by
  induction g with
  | nil => rfl
  | cons kv t ih =>
    obtain ⟨k, slots⟩ := kv
    simp [decodeGroupedPairs, decodeArr,
      decodeListWith_map Slot.model_validate Slot.model_dump (fun a => rfl), ih]

lemma coursesData_roundtrip (d : CoursesData) :
    CoursesData.model_validate (CoursesData.model_dump d) = .ok d := by
  obtain ⟨cs⟩ := d
  simp [CoursesData.model_validate, CoursesData.model_dump, reqField, decodeArr,
    decodeListWith_map Course.model_validate Course.model_dump (fun a => rfl)]

lemma slotResponseData_roundtrip (d : SlotResponseData) :
    SlotResponseData.model_validate (SlotResponseData.model_dump d) = .ok d := by
  obtain ⟨ms, g⟩ := d
  cases ms <;> cases g <;>
    simp [SlotResponseData.model_validate, SlotResponseData.model_dump, optField,
      decodeArr, decodeGrouped, List.lookup,
      decodeListWith_map SlotMonth.model_validate SlotMonth.model_dump (fun a => rfl),
      groupedPairs_roundtrip]

lemma checkIdPasswordResponse_roundtrip (r : CheckIdPasswordResponse) :
    CheckIdPasswordResponse.model_validate (CheckIdPasswordResponse.model_dump r) =
      .ok r := by
  obtain ⟨s, c, d⟩ := r
  cases c <;> rfl

lemma loginCaptcha_roundtrip (r : LoginCaptcha) :
    LoginCaptcha.model_validate (LoginCaptcha.model_dump r) = .ok r := by
  obtain ⟨s, c, d⟩ := r
  cases c <;> rfl

lemma courses_roundtrip (r : Courses) :
    Courses.model_validate (Courses.model_dump r) = .ok r := by
  obtain ⟨s, c, d⟩ := r
  cases c <;>
    simp [Courses.model_validate, Courses.model_dump, envelopeValidate, reqField,
      List.lookup, decodeBool, decodeIntOpt, decodeInt, encodeIntOpt,
      coursesData_roundtrip]

lemma slotResponse_roundtrip (r : SlotResponse) :
    SlotResponse.model_validate (SlotResponse.model_dump r) = .ok r := by
  obtain ⟨s, c, d⟩ := r
  cases c <;>
    simp [SlotResponse.model_validate, SlotResponse.model_dump, envelopeValidate,
      reqField, List.lookup, decodeBool, decodeIntOpt, decodeInt, encodeIntOpt,
      slotResponseData_roundtrip]

/-- C6: casing round-trip — encoding any internal record to its camelCase
wire object (`model_dump` with aliases) and decoding the result back
(`model_validate`) yields the original record, for every schema type of the
model layer. -/
theorem wire_casing_roundtrip :
    (∀ s : Slot, Slot.model_validate (Slot.model_dump s) = .ok s) ∧
    (∀ m : SlotMonth, SlotMonth.model_validate (SlotMonth.model_dump m) = .ok m) ∧
    (∀ c : Course, Course.model_validate (Course.model_dump c) = .ok c) ∧
    (∀ d : CheckIdPasswordResponseData,
      CheckIdPasswordResponseData.model_validate
        (CheckIdPasswordResponseData.model_dump d) = .ok d) ∧
    (∀ d : LoginCaptchaData,
      LoginCaptchaData.model_validate (LoginCaptchaData.model_dump d) = .ok d) ∧
    (∀ d : CoursesData,
      CoursesData.model_validate (CoursesData.model_dump d) = .ok d) ∧
    (∀ d : SlotResponseData,
      SlotResponseData.model_validate (SlotResponseData.model_dump d) = .ok d) ∧
    (∀ r : CheckIdPasswordResponse,
      CheckIdPasswordResponse.model_validate
        (CheckIdPasswordResponse.model_dump r) = .ok r) ∧
    (∀ r : LoginCaptcha,
      LoginCaptcha.model_validate (LoginCaptcha.model_dump r) = .ok r) ∧
    (∀ r : Courses, Courses.model_validate (Courses.model_dump r) = .ok r) ∧
    (∀ r : SlotResponse,
      SlotResponse.model_validate (SlotResponse.model_dump r) = .ok r) :=
  ⟨fun _ => rfl, fun _ => rfl, fun _ => rfl, fun _ => rfl, fun _ => rfl,
   coursesData_roundtrip, slotResponseData_roundtrip,
   checkIdPasswordResponse_roundtrip, loginCaptcha_roundtrip,
   courses_roundtrip, slotResponse_roundtrip⟩

lemma lookup_append_singleton {β : Type} (kvs : List (String × β)) (q k : String)
    (v : β) (h : q ≠ k) : (kvs ++ [(k, v)]).lookup q = kvs.lookup q := by
  induction kvs with
  | nil =>
    have hqk : (q == k) = false := beq_eq_false_iff_ne.2 h
    simp [List.lookup, hqk]
  | cons a t ih =>
    obtain ⟨a1, a2⟩ := a
    by_cases hq : q = a1 <;> simp [List.lookup, hq, ih]

lemma decodeOk_map {α β : Type} (f : α → β) (x : Except String α) :
    decodeOk (Except.map f x) = decodeOk x := by cases x <;> rfl

lemma decodeOk_bind_false {α β : Type} (x : Except String α)
    (f : α → Except String β) (hf : ∀ a, decodeOk (f a) = false) :
    decodeOk (x >>= f) = false := by
  cases x with
  | ok a => simpa using hf a
  | error e => rfl

lemma envelope_missing_field {α : Type} (dataDec : Json → Except String α)
    (kvs : List (String × Json))
    (h : kvs.lookup "success" = none ∨ kvs.lookup "code" = none ∨
      kvs.lookup "data" = none) :
    decodeOk (envelopeValidate dataDec (.obj kvs)) = false := by
  rcases h with h | h | h
  · simp [envelopeValidate, reqField, h, decodeOk]
  · simp only [envelopeValidate]
    apply decodeOk_bind_false
    intro s
    simp [reqField, h, decodeOk]
  · simp only [envelopeValidate]
    apply decodeOk_bind_false
    intro s
    apply decodeOk_bind_false
    intro c
    simp [reqField, h, decodeOk]

lemma envelope_extra_field {α : Type} (dataDec : Json → Except String α)
    (kvs : List (String × Json)) (k : String) (v : Json)
    (h1 : k ≠ "success") (h2 : k ≠ "code") (h3 : k ≠ "data") :
    envelopeValidate dataDec (.obj (kvs ++ [(k, v)])) =
      envelopeValidate dataDec (.obj kvs) := by
  simp only [envelopeValidate, reqField,
    lookup_append_singleton kvs "success" k v (Ne.symm h1),
    lookup_append_singleton kvs "code" k v (Ne.symm h2),
    lookup_append_singleton kvs "data" k v (Ne.symm h3)]

/-- The camelCase aliases of the required (no-default) fields of `Slot`. -/
def Slot.requiredKeys : List String :=
  ["slotId", "slotRefName", "slotRefDate", "startTime", "endTime",
   "slotAvlComputed", "computedSlotAvl"]

/-- The camelCase aliases of the required fields of `SlotMonth`. -/
def SlotMonth.requiredKeys : List String := ["slotMonthEn", "slotMonthYm"]

/-- The camelCase aliases of the required fields of `Course`. -/
def Course.requiredKeys : List String :=
  ["courseType", "accountBal", "enrExpiryDateStr", "authToken"]

/-- The camelCase aliases of the required fields of
`CheckIdPasswordResponseData`. -/
def CheckIdPasswordResponseData.requiredKeys : List String :=
  ["tokenHeader", "tokenContent", "username"]

/-- The camelCase aliases of the required fields of `LoginCaptchaData`. -/
def LoginCaptchaData.requiredKeys : List String :=
  ["image", "captchaToken", "verifyCodeId"]

/-- The camelCase alias of the required field of `CoursesData`. -/
def CoursesData.requiredKeys : List String := ["activeCourseList"]

/-- The camelCase aliases of the (all optional) fields of `SlotResponseData`. -/
def SlotResponseData.optionalKeys : List String :=
  ["releasedSlotMonthList", "releasedSlotListGroupByDay"]

/-- The field aliases of the shared response envelope. -/
def envelopeKeys : List String := ["success", "code", "data"]

lemma decodeOk_reqField_bind_false {α β : Type} (kvs : List (String × Json))
    (k : String) (dec : Json → Except String α) (f : α → Except String β)
    (h : kvs.lookup k = none) :
    decodeOk (reqField kvs k dec >>= f) = false := by
  simp [reqField, h, decodeOk]

lemma slot_missing_field (kvs : List (String × Json))
    (h : ∃ k ∈ Slot.requiredKeys, kvs.lookup k = none) :
    decodeOk (Slot.model_validate (.obj kvs)) = false := by
  obtain ⟨k, hk, hnone⟩ := h
  simp only [Slot.requiredKeys, List.mem_cons, List.not_mem_nil, or_false] at hk
  simp only [Slot.model_validate]
  rcases hk with rfl | rfl | rfl | rfl | rfl | rfl | rfl <;>
    repeat (first
      | exact decodeOk_reqField_bind_false _ _ _ _ hnone
      | (apply decodeOk_bind_false; intro _))

lemma slotMonth_missing_field (kvs : List (String × Json))
    (h : ∃ k ∈ SlotMonth.requiredKeys, kvs.lookup k = none) :
    decodeOk (SlotMonth.model_validate (.obj kvs)) = false := by
  obtain ⟨k, hk, hnone⟩ := h
  simp only [SlotMonth.requiredKeys, List.mem_cons, List.not_mem_nil, or_false] at hk
  simp only [SlotMonth.model_validate]
  rcases hk with rfl | rfl <;>
    repeat (first
      | exact decodeOk_reqField_bind_false _ _ _ _ hnone
      | (apply decodeOk_bind_false; intro _))

lemma course_missing_field (kvs : List (String × Json))
    (h : ∃ k ∈ Course.requiredKeys, kvs.lookup k = none) :
    decodeOk (Course.model_validate (.obj kvs)) = false := by
  obtain ⟨k, hk, hnone⟩ := h
  simp only [Course.requiredKeys, List.mem_cons, List.not_mem_nil, or_false] at hk
  simp only [Course.model_validate]
  rcases hk with rfl | rfl | rfl | rfl <;>
    repeat (first
      | exact decodeOk_reqField_bind_false _ _ _ _ hnone
      | (apply decodeOk_bind_false; intro _))

lemma checkIdData_missing_field (kvs : List (String × Json))
    (h : ∃ k ∈ CheckIdPasswordResponseData.requiredKeys, kvs.lookup k = none) :
    decodeOk (CheckIdPasswordResponseData.model_validate (.obj kvs)) = false := by
  obtain ⟨k, hk, hnone⟩ := h
  simp only [CheckIdPasswordResponseData.requiredKeys, List.mem_cons,
    List.not_mem_nil, or_false] at hk
  simp only [CheckIdPasswordResponseData.model_validate]
  rcases hk with rfl | rfl | rfl <;>
    repeat (first
      | exact decodeOk_reqField_bind_false _ _ _ _ hnone
      | (apply decodeOk_bind_false; intro _))

lemma loginCaptchaData_missing_field (kvs : List (String × Json))
    (h : ∃ k ∈ LoginCaptchaData.requiredKeys, kvs.lookup k = none) :
    decodeOk (LoginCaptchaData.model_validate (.obj kvs)) = false := by
  obtain ⟨k, hk, hnone⟩ := h
  simp only [LoginCaptchaData.requiredKeys, List.mem_cons,
    List.not_mem_nil, or_false] at hk
  simp only [LoginCaptchaData.model_validate]
  rcases hk with rfl | rfl | rfl <;>
    repeat (first
      | exact decodeOk_reqField_bind_false _ _ _ _ hnone
      | (apply decodeOk_bind_false; intro _))

lemma coursesData_missing_field (kvs : List (String × Json))
    (h : ∃ k ∈ CoursesData.requiredKeys, kvs.lookup k = none) :
    decodeOk (CoursesData.model_validate (.obj kvs)) = false := by
  obtain ⟨k, hk, hnone⟩ := h
  simp only [CoursesData.requiredKeys, List.mem_cons, List.not_mem_nil,
    or_false] at hk
  simp only [CoursesData.model_validate]
  rcases hk with rfl
  exact decodeOk_reqField_bind_false _ _ _ _ hnone

lemma slot_extra_field (kvs : List (String × Json)) (k : String) (v : Json)
    (h : k ∉ Slot.requiredKeys) :
    Slot.model_validate (.obj (kvs ++ [(k, v)])) =
      Slot.model_validate (.obj kvs) := by
  simp only [Slot.requiredKeys, List.mem_cons, List.not_mem_nil, or_false,
    not_or] at h
  obtain ⟨h1, h2, h3, h4, h5, h6, h7⟩ := h
  simp only [Slot.model_validate, reqField,
    lookup_append_singleton kvs "slotId" k v (Ne.symm h1),
    lookup_append_singleton kvs "slotRefName" k v (Ne.symm h2),
    lookup_append_singleton kvs "slotRefDate" k v (Ne.symm h3),
    lookup_append_singleton kvs "startTime" k v (Ne.symm h4),
    lookup_append_singleton kvs "endTime" k v (Ne.symm h5),
    lookup_append_singleton kvs "slotAvlComputed" k v (Ne.symm h6),
    lookup_append_singleton kvs "computedSlotAvl" k v (Ne.symm h7)]

lemma slotMonth_extra_field (kvs : List (String × Json)) (k : String) (v : Json)
    (h : k ∉ SlotMonth.requiredKeys) :
    SlotMonth.model_validate (.obj (kvs ++ [(k, v)])) =
      SlotMonth.model_validate (.obj kvs) := by
  simp only [SlotMonth.requiredKeys, List.mem_cons, List.not_mem_nil, or_false,
    not_or] at h
  obtain ⟨h1, h2⟩ := h
  simp only [SlotMonth.model_validate, reqField,
    lookup_append_singleton kvs "slotMonthEn" k v (Ne.symm h1),
    lookup_append_singleton kvs "slotMonthYm" k v (Ne.symm h2)]

lemma course_extra_field (kvs : List (String × Json)) (k : String) (v : Json)
    (h : k ∉ Course.requiredKeys) :
    Course.model_validate (.obj (kvs ++ [(k, v)])) =
      Course.model_validate (.obj kvs) := by
  simp only [Course.requiredKeys, List.mem_cons, List.not_mem_nil, or_false,
    not_or] at h
  obtain ⟨h1, h2, h3, h4⟩ := h
  simp only [Course.model_validate, reqField,
    lookup_append_singleton kvs "courseType" k v (Ne.symm h1),
    lookup_append_singleton kvs "accountBal" k v (Ne.symm h2),
    lookup_append_singleton kvs "enrExpiryDateStr" k v (Ne.symm h3),
    lookup_append_singleton kvs "authToken" k v (Ne.symm h4)]

lemma checkIdData_extra_field (kvs : List (String × Json)) (k : String) (v : Json)
    (h : k ∉ CheckIdPasswordResponseData.requiredKeys) :
    CheckIdPasswordResponseData.model_validate (.obj (kvs ++ [(k, v)])) =
      CheckIdPasswordResponseData.model_validate (.obj kvs) := by
  simp only [CheckIdPasswordResponseData.requiredKeys, List.mem_cons,
    List.not_mem_nil, or_false, not_or] at h
  obtain ⟨h1, h2, h3⟩ := h
  simp only [CheckIdPasswordResponseData.model_validate, reqField,
    lookup_append_singleton kvs "tokenHeader" k v (Ne.symm h1),
    lookup_append_singleton kvs "tokenContent" k v (Ne.symm h2),
    lookup_append_singleton kvs "username" k v (Ne.symm h3)]

lemma loginCaptchaData_extra_field (kvs : List (String × Json)) (k : String)
    (v : Json) (h : k ∉ LoginCaptchaData.requiredKeys) :
    LoginCaptchaData.model_validate (.obj (kvs ++ [(k, v)])) =
      LoginCaptchaData.model_validate (.obj kvs) := by
  simp only [LoginCaptchaData.requiredKeys, List.mem_cons, List.not_mem_nil,
    or_false, not_or] at h
  obtain ⟨h1, h2, h3⟩ := h
  simp only [LoginCaptchaData.model_validate, reqField,
    lookup_append_singleton kvs "image" k v (Ne.symm h1),
    lookup_append_singleton kvs "captchaToken" k v (Ne.symm h2),
    lookup_append_singleton kvs "verifyCodeId" k v (Ne.symm h3)]

lemma coursesData_extra_field (kvs : List (String × Json)) (k : String) (v : Json)
    (h : k ∉ CoursesData.requiredKeys) :
    CoursesData.model_validate (.obj (kvs ++ [(k, v)])) =
      CoursesData.model_validate (.obj kvs) := by
  simp only [CoursesData.requiredKeys, List.mem_cons, List.not_mem_nil,
    or_false, not_or] at h
  simp only [CoursesData.model_validate, reqField,
    lookup_append_singleton kvs "activeCourseList" k v (Ne.symm h)]

lemma slotResponseData_extra_field (kvs : List (String × Json)) (k : String)
    (v : Json) (h : k ∉ SlotResponseData.optionalKeys) :
    SlotResponseData.model_validate (.obj (kvs ++ [(k, v)])) =
      SlotResponseData.model_validate (.obj kvs) := by
  simp only [SlotResponseData.optionalKeys, List.mem_cons, List.not_mem_nil,
    or_false, not_or] at h
  obtain ⟨h1, h2⟩ := h
  simp only [SlotResponseData.model_validate, optField,
    lookup_append_singleton kvs "releasedSlotMonthList" k v (Ne.symm h1),
    lookup_append_singleton kvs "releasedSlotListGroupByDay" k v (Ne.symm h2)]

lemma envelopes_missing_field (kvs : List (String × Json))
    (h : ∃ k ∈ envelopeKeys, kvs.lookup k = none) :
    decodeOk (CheckIdPasswordResponse.model_validate (.obj kvs)) = false ∧
    decodeOk (LoginCaptcha.model_validate (.obj kvs)) = false ∧
    decodeOk (Courses.model_validate (.obj kvs)) = false ∧
    decodeOk (SlotResponse.model_validate (.obj kvs)) = false := by
  have h3 : kvs.lookup "success" = none ∨ kvs.lookup "code" = none ∨
      kvs.lookup "data" = none := by
    obtain ⟨k, hk, hnone⟩ := h
    simp only [envelopeKeys, List.mem_cons, List.not_mem_nil, or_false] at hk
    rcases hk with rfl | rfl | rfl
    · exact Or.inl hnone
    · exact Or.inr (Or.inl hnone)
    · exact Or.inr (Or.inr hnone)
  refine ⟨?_, ?_, ?_, ?_⟩ <;>
    simp [CheckIdPasswordResponse.model_validate, LoginCaptcha.model_validate,
      Courses.model_validate, SlotResponse.model_validate, decodeOk_map,
      envelope_missing_field _ kvs h3]

lemma envelopes_extra_field (kvs : List (String × Json)) (k : String) (v : Json)
    (h : k ∉ envelopeKeys) :
    CheckIdPasswordResponse.model_validate (.obj (kvs ++ [(k, v)])) =
      CheckIdPasswordResponse.model_validate (.obj kvs) ∧
    LoginCaptcha.model_validate (.obj (kvs ++ [(k, v)])) =
      LoginCaptcha.model_validate (.obj kvs) ∧
    Courses.model_validate (.obj (kvs ++ [(k, v)])) =
      Courses.model_validate (.obj kvs) ∧
    SlotResponse.model_validate (.obj (kvs ++ [(k, v)])) =
      SlotResponse.model_validate (.obj kvs) := by
  simp only [envelopeKeys, List.mem_cons, List.not_mem_nil, or_false,
    not_or] at h
  obtain ⟨h1, h2, h3⟩ := h
  refine ⟨?_, ?_, ?_, ?_⟩ <;>
    simp [CheckIdPasswordResponse.model_validate, LoginCaptcha.model_validate,
      Courses.model_validate, SlotResponse.model_validate,
      envelope_extra_field _ kvs k v h1 h2 h3]

/-- C4: for every schema type of the model layer, validating a JSON object
that lacks a required field fails with a schema error, while validating an
object extended with an unknown field succeeds exactly as, and yields the
same record as, validating the object without it.  (`SlotResponseData` has
no required field, so only the unknown-field half applies to it.) -/
theorem schema_missing_and_unknown_fields :
    (∀ kvs, (∃ k ∈ Slot.requiredKeys, kvs.lookup k = none) →
      decodeOk (Slot.model_validate (.obj kvs)) = false) ∧
    (∀ kvs k v, k ∉ Slot.requiredKeys →
      Slot.model_validate (.obj (kvs ++ [(k, v)])) =
        Slot.model_validate (.obj kvs)) ∧
    (∀ kvs, (∃ k ∈ SlotMonth.requiredKeys, kvs.lookup k = none) →
      decodeOk (SlotMonth.model_validate (.obj kvs)) = false) ∧
    (∀ kvs k v, k ∉ SlotMonth.requiredKeys →
      SlotMonth.model_validate (.obj (kvs ++ [(k, v)])) =
        SlotMonth.model_validate (.obj kvs)) ∧
    (∀ kvs, (∃ k ∈ Course.requiredKeys, kvs.lookup k = none) →
      decodeOk (Course.model_validate (.obj kvs)) = false) ∧
    (∀ kvs k v, k ∉ Course.requiredKeys →
      Course.model_validate (.obj (kvs ++ [(k, v)])) =
        Course.model_validate (.obj kvs)) ∧
    (∀ kvs, (∃ k ∈ CheckIdPasswordResponseData.requiredKeys, kvs.lookup k = none) →
      decodeOk (CheckIdPasswordResponseData.model_validate (.obj kvs)) = false) ∧
    (∀ kvs k v, k ∉ CheckIdPasswordResponseData.requiredKeys →
      CheckIdPasswordResponseData.model_validate (.obj (kvs ++ [(k, v)])) =
        CheckIdPasswordResponseData.model_validate (.obj kvs)) ∧
    (∀ kvs, (∃ k ∈ LoginCaptchaData.requiredKeys, kvs.lookup k = none) →
      decodeOk (LoginCaptchaData.model_validate (.obj kvs)) = false) ∧
    (∀ kvs k v, k ∉ LoginCaptchaData.requiredKeys →
      LoginCaptchaData.model_validate (.obj (kvs ++ [(k, v)])) =
        LoginCaptchaData.model_validate (.obj kvs)) ∧
    (∀ kvs, (∃ k ∈ CoursesData.requiredKeys, kvs.lookup k = none) →
      decodeOk (CoursesData.model_validate (.obj kvs)) = false) ∧
    (∀ kvs k v, k ∉ CoursesData.requiredKeys →
      CoursesData.model_validate (.obj (kvs ++ [(k, v)])) =
        CoursesData.model_validate (.obj kvs)) ∧
    (∀ kvs k v, k ∉ SlotResponseData.optionalKeys →
      SlotResponseData.model_validate (.obj (kvs ++ [(k, v)])) =
        SlotResponseData.model_validate (.obj kvs)) ∧
    (∀ kvs, (∃ k ∈ envelopeKeys, kvs.lookup k = none) →
      decodeOk (CheckIdPasswordResponse.model_validate (.obj kvs)) = false ∧
      decodeOk (LoginCaptcha.model_validate (.obj kvs)) = false ∧
      decodeOk (Courses.model_validate (.obj kvs)) = false ∧
      decodeOk (SlotResponse.model_validate (.obj kvs)) = false) ∧
    (∀ kvs k v, k ∉ envelopeKeys →
      CheckIdPasswordResponse.model_validate (.obj (kvs ++ [(k, v)])) =
        CheckIdPasswordResponse.model_validate (.obj kvs) ∧
      LoginCaptcha.model_validate (.obj (kvs ++ [(k, v)])) =
        LoginCaptcha.model_validate (.obj kvs) ∧
      Courses.model_validate (.obj (kvs ++ [(k, v)])) =
        Courses.model_validate (.obj kvs) ∧
      SlotResponse.model_validate (.obj (kvs ++ [(k, v)])) =
        SlotResponse.model_validate (.obj kvs)) :=
  ⟨slot_missing_field, slot_extra_field, slotMonth_missing_field,
   slotMonth_extra_field, course_missing_field, course_extra_field,
   checkIdData_missing_field, checkIdData_extra_field,
   loginCaptchaData_missing_field, loginCaptchaData_extra_field,
   coursesData_missing_field, coursesData_extra_field,
   slotResponseData_extra_field, envelopes_missing_field,
   envelopes_extra_field⟩

theorem schema_missing_and_unknown_fields_witness :
    decodeOk (Slot.model_validate (.obj [])) = false ∧
    Slot.model_validate (.obj ([("slotId", Json.num 1)] ++ [("unknownField", Json.null)])) =
      Slot.model_validate (.obj [("slotId", Json.num 1)]) ∧
    decodeOk (SlotMonth.model_validate (.obj [])) = false ∧
    SlotMonth.model_validate (.obj ([] ++ [("unknownField", Json.null)])) =
      SlotMonth.model_validate (.obj []) ∧
    decodeOk (Course.model_validate (.obj [])) = false ∧
    Course.model_validate (.obj ([] ++ [("unknownField", Json.null)])) =
      Course.model_validate (.obj []) ∧
    decodeOk (CheckIdPasswordResponseData.model_validate (.obj [])) = false ∧
    CheckIdPasswordResponseData.model_validate (.obj ([] ++ [("unknownField", Json.null)])) =
      CheckIdPasswordResponseData.model_validate (.obj []) ∧
    decodeOk (LoginCaptchaData.model_validate (.obj [])) = false ∧
    LoginCaptchaData.model_validate (.obj ([] ++ [("unknownField", Json.null)])) =
      LoginCaptchaData.model_validate (.obj []) ∧
    decodeOk (CoursesData.model_validate (.obj [])) = false ∧
    CoursesData.model_validate (.obj ([] ++ [("unknownField", Json.null)])) =
      CoursesData.model_validate (.obj []) ∧
    SlotResponseData.model_validate (.obj ([] ++ [("unknownField", Json.null)])) =
      SlotResponseData.model_validate (.obj []) ∧
    (decodeOk (CheckIdPasswordResponse.model_validate (.obj [])) = false ∧
      decodeOk (LoginCaptcha.model_validate (.obj [])) = false ∧
      decodeOk (Courses.model_validate (.obj [])) = false ∧
      decodeOk (SlotResponse.model_validate (.obj [])) = false) ∧
    (CheckIdPasswordResponse.model_validate (.obj ([] ++ [("unknownField", Json.null)])) =
        CheckIdPasswordResponse.model_validate (.obj []) ∧
      LoginCaptcha.model_validate (.obj ([] ++ [("unknownField", Json.null)])) =
        LoginCaptcha.model_validate (.obj []) ∧
      Courses.model_validate (.obj ([] ++ [("unknownField", Json.null)])) =
        Courses.model_validate (.obj []) ∧
      SlotResponse.model_validate (.obj ([] ++ [("unknownField", Json.null)])) =
        SlotResponse.model_validate (.obj [])) := by
  obtain ⟨s1, s2, m1, m2, c1, c2, d1, d2, l1, l2, cd1, cd2, srd, em, ee⟩ :=
    schema_missing_and_unknown_fields
  exact ⟨s1 [] ⟨"slotRefName", by decide, rfl⟩,
    s2 [("slotId", Json.num 1)] "unknownField" Json.null (by decide),
    m1 [] ⟨"slotMonthEn", by decide, rfl⟩,
    m2 [] "unknownField" Json.null (by decide),
    c1 [] ⟨"courseType", by decide, rfl⟩,
    c2 [] "unknownField" Json.null (by decide),
    d1 [] ⟨"tokenHeader", by decide, rfl⟩,
    d2 [] "unknownField" Json.null (by decide),
    l1 [] ⟨"image", by decide, rfl⟩,
    l2 [] "unknownField" Json.null (by decide),
    cd1 [] ⟨"activeCourseList", by decide, rfl⟩,
    cd2 [] "unknownField" Json.null (by decide),
    srd [] "unknownField" Json.null (by decide),
    em [] ⟨"success", by decide, rfl⟩,
    ee [] "unknownField" Json.null (by decide)⟩

/-- C5: validating a slot-page data object in which an optional field is
present but `null` succeeds — provided the other optional field itself
decodes — and yields the explicit absent value `none` for the null field,
never a decoding error. -/
theorem optional_null_decodes_absent (kvs : List (String × Json)) :
    (∀ m, optField kvs "releasedSlotMonthList"
        (decodeArr SlotMonth.model_validate) = .ok m →
      kvs.lookup "releasedSlotListGroupByDay" = some .null →
      SlotResponseData.model_validate (.obj kvs) = .ok ⟨m, none⟩) ∧
    (∀ g, optField kvs "releasedSlotListGroupByDay" decodeGrouped = .ok g →
      kvs.lookup "releasedSlotMonthList" = some .null →
      SlotResponseData.model_validate (.obj kvs) = .ok ⟨none, g⟩) := by
  constructor
  · intro m hm hg
    have h2 : optField kvs "releasedSlotListGroupByDay" decodeGrouped = .ok none := by
      simp [optField, hg]
    simp [SlotResponseData.model_validate, hm, h2]
  · intro g hg hm
    have h1 : optField kvs "releasedSlotMonthList"
        (decodeArr SlotMonth.model_validate) = .ok none := by
      simp [optField, hm]
    simp [SlotResponseData.model_validate, h1, hg]

theorem optional_null_decodes_absent_witness :
    SlotResponseData.model_validate
        (.obj [("releasedSlotMonthList", Json.arr []),
               ("releasedSlotListGroupByDay", Json.null)]) = .ok ⟨some [], none⟩ ∧
    SlotResponseData.model_validate
        (.obj [("releasedSlotMonthList", Json.null),
               ("releasedSlotListGroupByDay", Json.obj [])]) = .ok ⟨none, some []⟩ :=
  ⟨(optional_null_decodes_absent _).1 (some []) rfl rfl,
   (optional_null_decodes_absent _).2 (some []) rfl rfl⟩

/-- `main` line 244:
`list(filter(lambda lesson: lesson.course_type == course_type, ...))[0]` —
the first course whose `course_type` equals the configured target; the `[0]`
on an empty filter result raises, modelled as `none`. -/
def selectCourse (courses : List Course) (course_type : String) : Option Course :=
  (courses.filter (fun lesson => lesson.course_type == course_type)).head?

/-- C7: with a course list of types `["3A", "3C"]`, target `"3C"` selects the
second record (the first whose type matches), and target `"9Z"` matches no
course, so the selection fails before any slot query can be issued. -/
theorem course_selection (c1 c2 : Course) (h1 : c1.course_type = "3A")
    (h2 : c2.course_type = "3C") :
    selectCourse [c1, c2] "3C" = some c2 ∧ selectCourse [c1, c2] "9Z" = none := by
  constructor <;> simp [selectCourse, List.filter, h1, h2]

/-- A sample decoded course of type 3A. -/
def course3A : Course := ⟨"3A", 100, "13-06-2024", "tokenA"⟩

/-- A sample decoded course of type 3C. -/
def course3C : Course := ⟨"3C", 200, "13-06-2024", "tokenC"⟩

theorem course_selection_witness :
    selectCourse [course3A, course3C] "3C" = some course3C ∧
    selectCourse [course3A, course3C] "9Z" = none :=
  course_selection course3A course3C rfl rfl

/-- A credential/login response body whose `data` object is schema-valid. -/
def loginSuccessBody (b : Bool) (c : Option Int) (th tc un : String) : Json :=
  .obj [("success", .bool b), ("code", encodeIntOpt c),
        ("data", .obj [("tokenHeader", .str th), ("tokenContent", .str tc),
                       ("username", .str un)])]

/-- A credential/login response body whose `data` field is `null`, as the
server sends on a failed step. -/
def loginNullDataBody (b : Bool) (c : Option Int) : Json :=
  .obj [("success", .bool b), ("code", encodeIntOpt c), ("data", .null)]

/-- C8: counterexample — a login body carrying `success=false` but a
schema-valid `data` object decodes to an ordinary `ok` record; `login` hands
it back to the caller as a normal value, not as a failed result. -/
theorem success_false_body_not_a_failure :
    CheckIdPasswordResponse.model_validate (loginSuccessBody false none "t" "c" "u") =
      .ok ⟨false, none, ⟨"t", "c", "u"⟩⟩ ∧
    decodeOk (CheckIdPasswordResponse.model_validate
      (loginSuccessBody false none "t" "c" "u")) ≠ false :=
  ⟨rfl, by decide⟩

/-- A captcha response body whose `data` object is schema-valid. -/
def captchaSuccessBody (b : Bool) (c : Option Int) (im ct vc : String) : Json :=
  .obj [("success", .bool b), ("code", encodeIntOpt c),
        ("data", .obj [("image", .str im), ("captchaToken", .str ct),
                       ("verifyCodeId", .str vc)])]

/-- A captcha response body whose required `data` field is `null`. -/
def captchaNullDataBody (b : Bool) (c : Option Int) : Json :=
  .obj [("success", .bool b), ("code", encodeIntOpt c), ("data", .null)]

/-- C8 (amended): on the credential, captcha and login response types the
core never inspects `success` or `code` — decoding yields an `ok` record
carrying those values verbatim, whatever they are — and only a
schema-validation failure (here a `null` required `data` field) is surfaced
as a failed result. -/
theorem success_never_alters_decoding (b : Bool) (c : Option Int) :
    (∀ th tc un : String,
      CheckIdPasswordResponse.model_validate (loginSuccessBody b c th tc un) =
        .ok ⟨b, c, ⟨th, tc, un⟩⟩) ∧
    decodeOk (CheckIdPasswordResponse.model_validate (loginNullDataBody b c)) =
      false ∧
    (∀ im ct vc : String,
      LoginCaptcha.model_validate (captchaSuccessBody b c im ct vc) =
        .ok ⟨b, c, ⟨im, ct, vc⟩⟩) ∧
    decodeOk (LoginCaptcha.model_validate (captchaNullDataBody b c)) = false := by
  refine ⟨?_, ?_, ?_, ?_⟩
  · intro th tc un
    cases c <;> rfl
  · cases c <;> rfl
  · intro im ct vc
    cases c <;> rfl
  · cases c <;> rfl
